import Mathlib

/-
Shallow embedding of the USB URB capture-and-decode engine of
src/urb_capture.py (classes URBCapture and URBParserObserver), together
with theorems settling the claims about it.

Conventions of the embedding:
  - Python ints are Lean Int (Nat where the source only ever sees
    non-negative dictionary values); bytes are List Nat.
  - A Python dict of event fields is a structure of Option-valued fields
    (none = key absent), so dict.get(k, d) is an Option match.
  - Python string formatting f"\x7bi:08X\x7d" / f"\x7bi:04X\x7d" is modelled by
    pyFormatX below (uppercase hex, sign-aware zero padding to a minimum
    width, as CPython implements the 0-padded X format spec).
-/

-- ===== Python-style uppercase hex formatting =====

/-- Uppercase hexadecimal digit characters, as Python's X format spec emits
them (the catch-all branch is unreachable for inputs below 16). -/
def hexDigitChar : Nat → Char
  | 0 => '0' | 1 => '1' | 2 => '2' | 3 => '3' | 4 => '4' | 5 => '5' | 6 => '6' | 7 => '7'
  | 8 => '8' | 9 => '9' | 10 => 'A' | 11 => 'B' | 12 => 'C' | 13 => 'D' | 14 => 'E' | 15 => 'F'
  | _ => '?'

/-- Big-endian hex digits of a natural number, fuel-indexed so the
definition is structural (fuel n + 1 always suffices since the argument
shrinks by a factor of 16 each step). -/
def natHexCharsAux : Nat → Nat → List Char
  | 0, _ => []
  | fuel + 1, n =>
    if n < 16 then [hexDigitChar n]
    else natHexCharsAux fuel (n / 16) ++ [hexDigitChar (n % 16)]

/-- Big-endian uppercase hex digits of a natural number, no leading zeros. -/
def natHexChars (n : Nat) : List Char := natHexCharsAux (n + 1) n

/-- Left-pad a digit list with '0' up to a minimum width. -/
def padZeros (width : Nat) (cs : List Char) : List Char :=
  List.replicate (width - cs.length) '0' ++ cs

/-- Python's zero-padded uppercase-hex format spec: pyFormatX w i is
f"\x7bi:0wX\x7d".  For negative i CPython emits a minus sign followed by the hex
digits of the magnitude, with the sign counted inside the padded width. -/
def pyFormatX (width : Nat) (i : Int) : String :=
  if i < 0 then String.mk ('-' :: padZeros (width - 1) (natHexChars i.natAbs))
  else String.mk (padZeros width (natHexChars i.toNat))

-- ===== Code tables: the URBFunction and URBStatus IntEnums =====

/-- The URBFunction IntEnum of urb_capture.py as a value-to-name table.
Python's URBFunction(c).name succeeds exactly on the listed values and
returns the listed member name (all values are distinct). -/
def URBFunction.table : List (Int × String) :=
  [ (0x0000, ("URB_FUNCTION_SELECT_CONFIGURATION")),
    (0x0001, ("URB_FUNCTION_SELECT_INTERFACE")),
    (0x0002, ("URB_FUNCTION_ABORT_PIPE")),
    (0x0003, ("URB_FUNCTION_TAKE_FRAME_LENGTH_CONTROL")),
    (0x0004, ("URB_FUNCTION_RELEASE_FRAME_LENGTH_CONTROL")),
    (0x0005, ("URB_FUNCTION_GET_FRAME_LENGTH")),
    (0x0006, ("URB_FUNCTION_SET_FRAME_LENGTH")),
    (0x0007, ("URB_FUNCTION_GET_CURRENT_FRAME_NUMBER")),
    (0x0008, ("URB_FUNCTION_CONTROL_TRANSFER")),
    (0x0009, ("URB_FUNCTION_BULK_OR_INTERRUPT_TRANSFER")),
    (0x000a, ("URB_FUNCTION_ISOCH_TRANSFER")),
    (0x000b, ("URB_FUNCTION_GET_DESCRIPTOR_FROM_DEVICE")),
    (0x000c, ("URB_FUNCTION_SET_DESCRIPTOR_TO_DEVICE")),
    (0x000d, ("URB_FUNCTION_SET_FEATURE_TO_DEVICE")),
    (0x000e, ("URB_FUNCTION_SET_FEATURE_TO_INTERFACE")),
    (0x000f, ("URB_FUNCTION_SET_FEATURE_TO_ENDPOINT")),
    (0x0010, ("URB_FUNCTION_CLEAR_FEATURE_TO_DEVICE")),
    (0x0011, ("URB_FUNCTION_CLEAR_FEATURE_TO_INTERFACE")),
    (0x0012, ("URB_FUNCTION_CLEAR_FEATURE_TO_ENDPOINT")),
    (0x0013, ("URB_FUNCTION_GET_STATUS_FROM_DEVICE")),
    (0x0014, ("URB_FUNCTION_GET_STATUS_FROM_INTERFACE")),
    (0x0015, ("URB_FUNCTION_GET_STATUS_FROM_ENDPOINT")),
    (0x0016, ("URB_FUNCTION_RESERVED_0X0016")),
    (0x0017, ("URB_FUNCTION_VENDOR_DEVICE")),
    (0x0018, ("URB_FUNCTION_VENDOR_INTERFACE")),
    (0x0019, ("URB_FUNCTION_VENDOR_ENDPOINT")),
    (0x001a, ("URB_FUNCTION_CLASS_DEVICE")),
    (0x001b, ("URB_FUNCTION_CLASS_INTERFACE")),
    (0x001c, ("URB_FUNCTION_CLASS_ENDPOINT")),
    (0x001d, ("URB_FUNCTION_RESERVE_0X001D")),
    (0x001e, ("URB_FUNCTION_SYNC_RESET_PIPE_AND_CLEAR_STALL")),
    (0x001f, ("URB_FUNCTION_CLASS_OTHER")),
    (0x0020, ("URB_FUNCTION_VENDOR_OTHER")),
    (0x0021, ("URB_FUNCTION_GET_STATUS_FROM_OTHER")),
    (0x0022, ("URB_FUNCTION_SET_FEATURE_TO_OTHER")),
    (0x0023, ("URB_FUNCTION_CLEAR_FEATURE_TO_OTHER")),
    (0x0024, ("URB_FUNCTION_GET_INTERFACE")),
    (0x0025, ("URB_FUNCTION_SET_INTERFACE")),
    (0x0026, ("URB_FUNCTION_GET_CONFIGURATION")),
    (0x0027, ("URB_FUNCTION_GET_DESCRIPTOR_FROM_ENDPOINT")),
    (0x0028, ("URB_FUNCTION_SET_DESCRIPTOR_TO_ENDPOINT")),
    (0x0029, ("URB_FUNCTION_SET_CONFIGURATION")),
    (0x002a, ("URB_FUNCTION_GET_DESCRIPTOR_FROM_INTERFACE")),
    (0x002b, ("URB_FUNCTION_SET_DESCRIPTOR_TO_INTERFACE")),
    (0x002c, ("URB_FUNCTION_GET_MS_FEATURE_DESCRIPTOR")) ]

/-- The URBStatus IntEnum of urb_capture.py as a value-to-name table.
Keyed by Nat because the source always looks it up on the 32-bit-masked
value (status & 0xFFFFFFFF), which is non-negative.  The misspelled member
USBD_STATUS_INAVLID_URB_FUNCTION is reproduced verbatim from the source. -/
def URBStatus.table : List (Nat × String) :=
  [ (0x00000000, ("USBD_STATUS_SUCCESS")),
    (0x40000000, ("USBD_STATUS_PENDING")),
    (0xC0000000, ("USBD_STATUS_ERROR")),
    (0xC0000001, ("USBD_STATUS_HALTED")),
    (0xC0000002, ("USBD_STATUS_INVALID_REQUEST")),
    (0xC0000003, ("USBD_STATUS_INVALID_PIPE_HANDLE")),
    (0xC0000004, ("USBD_STATUS_NO_BANDWIDTH")),
    (0xC0000005, ("USBD_STATUS_INTERNAL_HC_ERROR")),
    (0xC0000006, ("USBD_STATUS_ERROR_SHORT_TRANSFER")),
    (0xC0000007, ("USBD_STATUS_BAD_START_FRAME")),
    (0xC0000008, ("USBD_STATUS_ISOCH_REQUEST_FAILED")),
    (0xC0000009, ("USBD_STATUS_FRAME_CONTROL_OWNED")),
    (0xC000000a, ("USBD_STATUS_FRAME_CONTROL_NOT_OWNED")),
    (0xC000000b, ("USBD_STATUS_NOT_SUPPORTED")),
    (0xC000000c, ("USBD_STATUS_INAVLID_URB_FUNCTION")),
    (0xC000000d, ("USBD_STATUS_INVALID_PARAMETER")),
    (0xC000000e, ("USBD_STATUS_ERROR_BUSY")) ]

-- ===== Name resolution (URBCapture._get_urb_function_name / _get_status_name;
-- the methods of the same names on URBParserObserver are textually identical
-- copies, so a single definition embeds both) =====

/-- URBCapture._get_urb_function_name: try URBFunction(func_code).name, and on
ValueError fall back to f"UNKNOWN_0x\x7bfunc_code:04X\x7d".  No masking happens
anywhere: both the lookup and the fallback use the raw func_code. -/
def URBCapture._get_urb_function_name (func_code : Int) : String :=
  match URBFunction.table.lookup func_code with
  | some nm => nm
  | none => "UNKNOWN_0x" ++ pyFormatX 4 func_code

/-- URBCapture._get_status_name: try URBStatus(status & 0xFFFFFFFF).name, and
on ValueError fall back to f"STATUS_0x\x7bstatus:08X\x7d".  The 32-bit mask is
applied only to the enum lookup; the fallback formats the raw status.
Python's (status & 0xFFFFFFFF) is status mod 2^32, non-negative. -/
def URBCapture._get_status_name (status : Int) : String :=
  match URBStatus.table.lookup ((status % 4294967296).toNat) with
  | some nm => nm
  | none => "STATUS_0x" ++ pyFormatX 8 status

-- ===== String helpers (Python's `needle in hay` substring test and
-- str.index, over explicit character lists) =====

/-- listIsPre needle hay: needle is a leading segment of hay. -/
def listIsPre : List Char → List Char → Bool
  | [], _ => true
  | _ :: _, [] => false
  | a :: as, b :: bs => a == b && listIsPre as bs

/-- subIndex hay needle: index of the first occurrence of needle inside hay
(Python str.index), none when there is no occurrence (so isSome is Python's
`needle in hay`). -/
def subIndex : List Char → List Char → Option Nat
  | [], needle => if needle.isEmpty then some 0 else none
  | a :: t, needle =>
    if listIsPre needle (a :: t) then some 0
    else (subIndex t needle).map (fun i => i + 1)

/-- Python's substring containment test `needle in hay`. -/
def strContains (hay needle : String) : Bool :=
  (subIndex hay.toList needle.toList).isSome

-- ===== Hex decoding of string transfer buffers (bytes.fromhex) =====

/-- Value of one hexadecimal character, both cases accepted, as
bytes.fromhex accepts; none on any non-hex character. -/
def hexVal (c : Char) : Option Nat :=
  if '0' ≤ c ∧ c ≤ '9' then some (c.toNat - 48)
  else if 'a' ≤ c ∧ c ≤ 'f' then some (c.toNat - 87)
  else if 'A' ≤ c ∧ c ≤ 'F' then some (c.toNat - 55)
  else none

/-- bytes.fromhex on a character list with no spaces left: consumes hex
digits two at a time; fails (raises ValueError in Python) on an odd digit
count or a non-hex character. -/
def bytesFromHex : List Char → Option (List Nat)
  | [] => some []
  | [_] => none
  | c1 :: c2 :: rest =>
    match hexVal c1, hexVal c2, bytesFromHex rest with
    | some hi, some lo, some bs => some ((16 * hi + lo) :: bs)
    | _, _, _ => none

-- ===== Event records =====

/-- A transfer-buffer dictionary value: either raw bytes or a hex string
(the two representations the decoder handles; any other type raises inside
the extractor's try block in Python and yields no record). -/
inductive TransferBufferValue where
  | raw (bs : List Nat)
  | hexText (s : String)
deriving Repr, DecidableEq

/-- The ETW event-field dictionary (event.parse_etw()), restricted to the
keys the decoder reads.  none models an absent key, so Python's
d.get(k, default) becomes an Option match. -/
structure EventData where
  Function : Option Int := none
  URBFunction : Option Int := none
  Status : Option Int := none
  USBDStatus : Option Int := none
  DeviceId : Option String := none
  DeviceID : Option String := none
  EndpointAddress : Option Nat := none
  Endpoint : Option Nat := none
  TransferBufferLength : Option Nat := none
  Length : Option Nat := none
  ActualLength : Option Nat := none
  Actual : Option Nat := none
  TransferBuffer : Option TransferBufferValue := none
  bmRequestType : Option Nat := none
  RequestType : Option Nat := none
  bRequest : Option Nat := none
  Request : Option Nat := none
  wValue : Option Nat := none
  Value : Option Nat := none
  wIndex : Option Nat := none
  Index : Option Nat := none
  wLength : Option Nat := none
  Interval : Option Nat := none
  StartFrame : Option Nat := none
  NumberOfPackets : Option Nat := none
  ErrorCount : Option Nat := none
  PipeHandle : Option Nat := none
  Timeout : Option Nat := none
deriving Repr, DecidableEq

/-- One event delivered by the etl-parser stream to on_event_record.
timestamp is kept abstractly as the ISO-8601 string the decoder derives
from the event's capture time (no claim concerns the time formatting
itself); the getattr(..., default) fall-backs of the source are folded
into plain fields. -/
structure EtlEvent where
  provider_name : String := ""
  timestamp : String := ""
  event_id : Nat := 0
  process_id : Nat := 0
  thread_id : Nat := 0
  data : EventData := {}
deriving Repr, DecidableEq

/-- d.get(k1, d.get(k2, default)): first key if present, else second key if
present, else the default. -/
def dictGet2 {α : Type} (a b : Option α) (default : α) : α :=
  match a with
  | some x => x
  | none =>
    match b with
    | some y => y
    | none => default

/-- The setup-packet dictionary built for control transfers.  In the source
it is a dict that is either empty or carries exactly these five keys, so it
is embedded as an Option of this structure (none = the empty dict). -/
structure SetupPacket where
  bmRequestType : Nat
  bRequest : Nat
  wValue : Nat
  wIndex : Nat
  wLength : Nat
deriving Repr, DecidableEq

/-- The URBTransfer dataclass of urb_capture.py.  Field defaults mirror the
dataclass defaults; transfer_flags and usbd_status are never assigned by
the extractor and keep their defaults. -/
structure URBTransfer where
  timestamp : String
  urb_function : Int
  urb_function_name : String
  status : Int
  status_name : String
  device_id : String := ""
  vid : String := ""
  pid : String := ""
  endpoint_address : Nat := 0
  endpoint_direction : String := ""
  transfer_buffer_length : Nat := 0
  actual_length : Nat := 0
  transfer_flags : Nat := 0
  transfer_buffer : List Nat := []
  setup_packet : Option SetupPacket := none
  interval : Nat := 0
  start_frame : Nat := 0
  number_of_packets : Nat := 0
  error_count : Nat := 0
  pipe_handle : Nat := 0
  usbd_status : String := ""
  timeout : Nat := 0
  request_type : Nat := 0
  request : Nat := 0
  value : Nat := 0
  index : Nat := 0
  length : Nat := 0
  raw_data : EventData := {}
  event_id : Nat := 0
  process_id : Nat := 0
  thread_id : Nat := 0
deriving Repr, DecidableEq

-- ===== The per-event decoder (class URBParserObserver) =====

/-- The usb_providers set of URBParserObserver.__init__: the five fixed USB
ETW provider names the event filter tests against. -/
def URBParserObserver.usb_providers : List String :=
  [ ("Microsoft-Windows-USB-USBPORT"),
    ("Microsoft-Windows-USB-USBXHCI"),
    ("Microsoft-Windows-USB-UCX"),
    ("Microsoft-Windows-USB-USBHUB3"),
    ("Microsoft-Windows-USB-USBHUB") ]

/-- URBParserObserver._extract_vid_pid: locate the markers VID_ / PID_ in
the device identifier and read the 4 characters after each; an absent
marker yields the empty string (Python slicing past the end just
truncates, so short tails yield fewer than 4 characters, not an error). -/
def URBParserObserver._extract_vid_pid (device_id : String) : String × String :=
  let cs := device_id.toList
  let vid :=
    match subIndex cs (("VID_").toList) with
    | some i => String.mk ((cs.drop (i + 4)).take 4)
    | none => ""
  let pid :=
    match subIndex cs (("PID_")).toList with
    | some i => String.mk ((cs.drop (i + 4)).take 4)
    | none => ""
  (vid, pid)

/-- The decoder's transfer-buffer normalisation: event_data.get takes the
raw bytes as they are; a string value has its spaces removed and is decoded
with bytes.fromhex, any decode failure yielding empty bytes; an absent key
yields empty bytes. -/
def decodeTransferBuffer : Option TransferBufferValue → List Nat
  | none => []
  | some (.raw bs) => bs
  | some (.hexText s) => (bytesFromHex (s.toList.filter (fun c => c != ' '))).getD []

/-- URBParserObserver._extract_urb_from_event: build the URBTransfer from
one event's field dictionary.  Faithful to the source line by line; the
surrounding try/except only catches exceptions from ill-typed dictionary
values, which the typed embedding has no counterpart of, so the extractor
is total here. -/
def URBParserObserver._extract_urb_from_event (ev : EtlEvent) : URBTransfer :=
  let event_data := ev.data
  let urb_function : Int := dictGet2 event_data.Function event_data.URBFunction 0
  let status : Int := dictGet2 event_data.Status event_data.USBDStatus 0
  let device_id : String := dictGet2 event_data.DeviceId event_data.DeviceID ""
  let endpoint : Nat := dictGet2 event_data.EndpointAddress event_data.Endpoint 0
  let transfer_length : Nat := dictGet2 event_data.TransferBufferLength event_data.Length 0
  let actual_length : Nat := dictGet2 event_data.ActualLength event_data.Actual 0
  let vp := URBParserObserver._extract_vid_pid device_id
  let endpoint_dir : String := if endpoint.land 0x80 ≠ 0 then ("IN") else ("OUT")
  let transfer_buffer : List Nat := decodeTransferBuffer event_data.TransferBuffer
  let setup_packet : Option SetupPacket :=
    if urb_function = 0x0008 then
      some { bmRequestType := dictGet2 event_data.bmRequestType event_data.RequestType 0,
             bRequest := dictGet2 event_data.bRequest event_data.Request 0,
             wValue := dictGet2 event_data.wValue event_data.Value 0,
             wIndex := dictGet2 event_data.wIndex event_data.Index 0,
             wLength := dictGet2 event_data.wLength event_data.Length 0 }
    else none
  { timestamp := ev.timestamp,
    urb_function := urb_function,
    urb_function_name := URBCapture._get_urb_function_name urb_function,
    status := status,
    status_name := URBCapture._get_status_name status,
    device_id := device_id,
    vid := vp.1,
    pid := vp.2,
    endpoint_address := endpoint,
    endpoint_direction := endpoint_dir,
    transfer_buffer_length := transfer_length,
    actual_length := actual_length,
    transfer_buffer := transfer_buffer.take 1024,
    setup_packet := setup_packet,
    interval := (event_data.Interval).getD 0,
    start_frame := (event_data.StartFrame).getD 0,
    number_of_packets := (event_data.NumberOfPackets).getD 0,
    error_count := (event_data.ErrorCount).getD 0,
    pipe_handle := (event_data.PipeHandle).getD 0,
    timeout := (event_data.Timeout).getD 0,
    request_type := match setup_packet with | some sp => sp.bmRequestType | none => 0,
    request := match setup_packet with | some sp => sp.bRequest | none => 0,
    value := match setup_packet with | some sp => sp.wValue | none => 0,
    index := match setup_packet with | some sp => sp.wIndex | none => 0,
    length := match setup_packet with | some sp => sp.wLength | none => 0,
    raw_data := event_data,
    event_id := ev.event_id,
    process_id := ev.process_id,
    thread_id := ev.thread_id }

/-- URBParserObserver.on_event_record: drop the event unless its provider
name CONTAINS one of the five fixed provider names as a substring (Python:
any(provider in provider_name for provider in self.usb_providers)); then
extract the URB. -/
def URBParserObserver.on_event_record (ev : EtlEvent) : Option URBTransfer :=
  if URBParserObserver.usb_providers.any (fun provider => strContains ev.provider_name provider) then
    some (URBParserObserver._extract_urb_from_event ev)
  else none

-- ===== parse_etl_file =====

/-- URBCapture.parse_etl_file.  The filesystem plus the etl-parser stream
decoding are abstracted into fs: fs path = none means os.path.exists(path)
is false (the function then returns [] before touching the file), and
fs path = some events means the file exists and build_from_stream delivers
those events to the observer in order. -/
def URBCapture.parse_etl_file (fs : String → Option (List EtlEvent)) (etl_file : String) :
    List URBTransfer :=
  match fs etl_file with
  | none => []
  | some events => events.filterMap URBParserObserver.on_event_record

-- ===== Real-time capture: start guard and deduplication =====

/-- The mutable state of URBCapture that start_realtime_capture reads and
writes under self._realtime_lock.  The sink callback is kept abstractly as
an Option σ (none = Python None). -/
structure URBCaptureState (σ : Type) where
  realtime_running : Bool := false
  realtime_callback : Option σ := none
deriving Repr, DecidableEq

/-- URBCapture.start_realtime_capture: returns False when is_available()
fails (modelled by the available flag) and when a capture is already
running; only otherwise does it install the callback, set the running flag
and spawn the worker thread.  Returns the Python result together with the
state after the call. -/
def URBCapture.start_realtime_capture {σ : Type} (available : Bool)
    (st : URBCaptureState σ) (callback : σ) : Bool × URBCaptureState σ :=
  if available = false then (false, st)
  else if st.realtime_running then (false, st)
  else (true, { st with realtime_callback := some callback, realtime_running := true })

/-- The deduplication identity key of _realtime_worker:
f"\x7burb.timestamp\x7d|\x7burb.device_id\x7d|\x7burb.endpoint_address\x7d|\x7burb.transfer_buffer_length\x7d". -/
def urbKey (urb : URBTransfer) : String :=
  urb.timestamp ++ "|" ++ urb.device_id ++ "|" ++ toString urb.endpoint_address
    ++ "|" ++ toString urb.transfer_buffer_length

/-- One pass of the _realtime_worker dedup loop over the records returned
by a parse of the trace file: a record whose key is in processed_urb_ids is
discarded, otherwise its key is remembered and the record delivered to the
sink.  Returns the grown key set and the records delivered, in order. -/
def deliverNew : List String → List URBTransfer → List String × List URBTransfer
  | seen, [] => (seen, [])
  | seen, urb :: rest =>
    if urbKey urb ∈ seen then deliverNew seen rest
    else
      let r := deliverNew (urbKey urb :: seen) rest
      (r.1, urb :: r.2)

/-- The worker's whole run, as the sequence of parse passes it performs:
processed_urb_ids persists across passes; the result is every sink
invocation of the run, in order. -/
def realtimeLoop : List String → List (List URBTransfer) → List URBTransfer
  | _, [] => []
  | seen, p :: ps =>
    let r := deliverNew seen p
    r.2 ++ realtimeLoop r.1 ps

/-- URBCapture._realtime_worker restricted to its observable sink behaviour:
the deliveries over the run's parse passes, starting from the empty key set. -/
def URBCapture._realtime_worker (passes : List (List URBTransfer)) : List URBTransfer :=
  realtimeLoop [] passes

-- ===== Concrete data used by witnesses and counterexamples =====

/-- An event whose provider name is none of the five fixed provider names
but contains one of them (Microsoft-Windows-USB-USBHUB) as a substring. -/
def evHubX : EtlEvent := { provider_name := "Microsoft-Windows-USB-USBHUBX" }

/-- A bulk-transfer event from a fixed USB provider, with a hex-string
transfer buffer and an IN endpoint. -/
def evBulk : EtlEvent :=
  { provider_name := "Microsoft-Windows-USB-USBPORT",
    timestamp := "2024-05-01T10:00:00+00:00",
    event_id := 71,
    process_id := 4,
    thread_id := 1208,
    data := { Function := some 9,
              Status := some 0,
              DeviceId := some ("USB\\VID_0781&PID_5567\\4C53000006031234"),
              EndpointAddress := some 0x81,
              TransferBufferLength := some 4,
              ActualLength := some 4,
              TransferBuffer := some (.hexText ("DE AD BE EF")) } }

/-- A control-transfer event (function code 0x0008) with explicit
setup-packet sub-fields. -/
def evControl : EtlEvent :=
  { provider_name := "Microsoft-Windows-USB-USBXHCI",
    timestamp := "2024-05-01T10:00:01+00:00",
    event_id := 12,
    process_id := 4,
    thread_id := 1209,
    data := { Function := some 8,
              Status := some 0,
              DeviceId := some ("USB\\VID_046D&PID_C534\\5&2A1B7F8D&0&2"),
              EndpointAddress := some 0,
              bmRequestType := some 0x80,
              bRequest := some 6,
              wValue := some 0x0100,
              wIndex := some 0,
              wLength := some 18 } }

/-- A decoded record fed twice to the real-time worker's dedup loop. -/
def u0 : URBTransfer :=
  { timestamp := "2024-05-01T10:00:02+00:00",
    urb_function := 9,
    urb_function_name := "URB_FUNCTION_BULK_OR_INTERRUPT_TRANSFER",
    status := 0,
    status_name := "USBD_STATUS_SUCCESS",
    device_id := "USB\\VID_0781&PID_5567",
    endpoint_address := 0x81,
    endpoint_direction := "IN",
    transfer_buffer_length := 64 }

/-- A capture state with a real-time session already running and a sink
(abstractly numbered 7) registered. -/
def runningState : URBCaptureState Nat :=
  { realtime_running := true, realtime_callback := some 7 }

/-- A filesystem with no trace files at all. -/
def emptyFs : String → Option (List EtlEvent) := fun _ => none

-- ===== Helper lemmas =====

theorem hexDigitChar_mem (n : Nat) (h : n < 16) :
    hexDigitChar n ∈ ("0123456789ABCDEF").toList := by
  revert n h
  decide

theorem natHexCharsAux_length_le (fuel : Nat) :
    ∀ (n k : Nat), n < 16 ^ k → 0 < k → (natHexCharsAux fuel n).length ≤ k := by
  induction fuel with
  | zero => intro n k _ _; simp [natHexCharsAux]
  | succ f ih =>
    intro n k hk hpos
    by_cases h16 : n < 16
    · simp [natHexCharsAux, h16]
      omega
    · have hk1 : k ≠ 1 := by
        rintro rfl
        simp at hk
        omega
      have hdiv : n / 16 < 16 ^ (k - 1) := by
        apply Nat.div_lt_of_lt_mul
        have hpow : 16 * 16 ^ (k - 1) = 16 ^ k := by
          rw [← pow_succ']
          congr 1
          omega
        omega
      have hrec := ih (n / 16) (k - 1) hdiv (by omega)
      simp [natHexCharsAux, h16]
      omega

theorem natHexCharsAux_mem_hex (fuel : Nat) :
    ∀ (n : Nat), ∀ c ∈ natHexCharsAux fuel n, c ∈ ("0123456789ABCDEF").toList := by
  induction fuel with
  | zero => intro n c hc; simp [natHexCharsAux] at hc
  | succ f ih =>
    intro n c hc
    by_cases h16 : n < 16
    · simp [natHexCharsAux, h16] at hc
      subst hc
      exact hexDigitChar_mem n h16
    · simp [natHexCharsAux, h16] at hc
      rcases hc with hc | hc
      · exact ih _ _ hc
      · subst hc
        exact hexDigitChar_mem _ (Nat.mod_lt _ (by omega))

theorem pyFormatX_spec (w : Nat) (i : Int) (h0 : 0 ≤ i) (h1 : i < (16 : Int) ^ w)
    (hw : 0 < w) :
    (pyFormatX w i).length = w ∧
    ∀ c ∈ (pyFormatX w i).toList, c ∈ ("0123456789ABCDEF").toList := by
  have hcast : ((16 ^ w : Nat) : Int) = (16 : Int) ^ w := by push_cast; ring
  have hn : i.toNat < 16 ^ w := by omega
  have hlen : (natHexChars i.toNat).length ≤ w :=
    natHexCharsAux_length_le _ _ _ hn hw
  have hneg : ¬ i < 0 := by omega
  constructor
  · show (pyFormatX w i).length = w
    unfold pyFormatX
    rw [if_neg hneg]
    show (padZeros w (natHexChars i.toNat)).length = w
    unfold padZeros
    rw [List.length_append, List.length_replicate]
    omega
  · intro c hc
    unfold pyFormatX at hc
    rw [if_neg hneg] at hc
    have hc2 : c ∈ padZeros w (natHexChars i.toNat) := hc
    unfold padZeros at hc2
    rcases List.mem_append.mp hc2 with hr | hx
    · have := List.eq_of_mem_replicate hr
      subst this
      decide
    · exact natHexCharsAux_mem_hex _ _ _ hx

theorem on_event_record_some {ev : EtlEvent} {urb : URBTransfer}
    (h : URBParserObserver.on_event_record ev = some urb) :
    urb = URBParserObserver._extract_urb_from_event ev := by
  unfold URBParserObserver.on_event_record at h
  split at h
  · exact (Option.some.inj h).symm
  · exact absurd h (by simp)

-- ===== C1 =====

/-- C1 counterexample: the claim says the fallback formats the 32-bit
masked value s % 2^32, but _get_status_name formats the raw s.  At
s = 2^32 + 1 (unknown both raw and masked) the code yields
STATUS_0x100000001 (nine digits of the unmasked value), not
STATUS_0x00000001; and at s = 2^32 (not itself a known status code) the
code does not take the fallback at all, returning USBD_STATUS_SUCCESS for
the masked value 0. -/
theorem get_status_name_mask_cex :
    URBStatus.table.lookup (4294967297 : Nat) = none ∧
    URBStatus.table.lookup (((4294967297 : Int) % 4294967296).toNat) = none ∧
    URBCapture._get_status_name 4294967297 = "STATUS_0x100000001" ∧
    "STATUS_0x100000001" ≠ "STATUS_0x" ++ pyFormatX 8 ((4294967297 : Int) % 4294967296) ∧
    URBStatus.table.lookup (4294967296 : Nat) = none ∧
    URBCapture._get_status_name 4294967296 = "USBD_STATUS_SUCCESS" := by
  decide

/-- C1 (amended): for every status code s whose 32-bit masked value is not
a known URB status code, _get_status_name returns exactly
STATUS_0x followed by Python's width-8 uppercase-hex rendering of the RAW
(unmasked) s; when 0 ≤ s < 2^32 that raw value coincides with s % 2^32 and
the rendering is exactly 8 uppercase hex digits. -/
theorem get_status_name_unknown (s : Int)
    (h : URBStatus.table.lookup ((s % 4294967296).toNat) = none) :
    URBCapture._get_status_name s = "STATUS_0x" ++ pyFormatX 8 s ∧
    (0 ≤ s → s < 4294967296 →
      s % 4294967296 = s ∧
      (pyFormatX 8 s).length = 8 ∧
      ∀ c ∈ (pyFormatX 8 s).toList, c ∈ ("0123456789ABCDEF").toList) := by
  constructor
  · unfold URBCapture._get_status_name
    rw [h]
  · intro h0 h1
    refine ⟨Int.emod_eq_of_lt h0 h1, ?_⟩
    exact pyFormatX_spec 8 s h0 (by norm_num; omega) (by omega)

/-- C1 witness: the amended theorem applied at the unknown status
0xDEADBEEF. -/
theorem get_status_name_unknown_witness :
    URBStatus.table.lookup (((3735928559 : Int) % 4294967296).toNat) = none ∧
    (URBCapture._get_status_name 3735928559 = "STATUS_0x" ++ pyFormatX 8 3735928559 ∧
     (0 ≤ (3735928559 : Int) → (3735928559 : Int) < 4294967296 →
       (3735928559 : Int) % 4294967296 = 3735928559 ∧
       (pyFormatX 8 (3735928559 : Int)).length = 8 ∧
       ∀ c ∈ (pyFormatX 8 (3735928559 : Int)).toList,
         c ∈ ("0123456789ABCDEF").toList)) :=
  ⟨by decide, get_status_name_unknown 3735928559 (by decide)⟩

-- ===== C8 =====

/-- C8 counterexample: for the unknown function code 0x10000 the name is
UNKNOWN_0x10000, whose hex part has five digits, not the claimed four
(Python's 04X pads to a minimum width of four but never truncates). -/
theorem get_urb_function_name_width_cex :
    URBFunction.table.lookup (65536 : Int) = none ∧
    URBCapture._get_urb_function_name 65536 = "UNKNOWN_0x10000" ∧
    ("UNKNOWN_0x10000").length ≠ ("UNKNOWN_0x").length + 4 := by
  decide

/-- C8 (amended): for every unknown function code c the name is exactly
UNKNOWN_0x followed by Python's width-4 uppercase-hex rendering of c,
which consists of exactly 4 uppercase hex digits whenever 0 ≤ c < 2^16
(larger codes render with more digits); in particular the unmapped code
0x00FF resolves to UNKNOWN_0x00FF, as the witness evaluates. -/
theorem get_urb_function_name_unknown (c : Int)
    (h : URBFunction.table.lookup c = none) :
    URBCapture._get_urb_function_name c = "UNKNOWN_0x" ++ pyFormatX 4 c ∧
    (0 ≤ c → c < 65536 →
      (pyFormatX 4 c).length = 4 ∧
      ∀ ch ∈ (pyFormatX 4 c).toList, ch ∈ ("0123456789ABCDEF").toList) := by
  constructor
  · unfold URBCapture._get_urb_function_name
    rw [h]
  · intro h0 h1
    exact pyFormatX_spec 4 c h0 (by norm_num; omega) (by omega)

/-- C8 witness: the amended theorem applied at the unmapped code 0x00FF,
together with the evaluated name UNKNOWN_0x00FF. -/
theorem get_urb_function_name_unknown_witness :
    URBFunction.table.lookup (255 : Int) = none ∧
    (URBCapture._get_urb_function_name 255 = "UNKNOWN_0x" ++ pyFormatX 4 255 ∧
     (0 ≤ (255 : Int) → (255 : Int) < 65536 →
       (pyFormatX 4 (255 : Int)).length = 4 ∧
       ∀ ch ∈ (pyFormatX 4 (255 : Int)).toList,
         ch ∈ ("0123456789ABCDEF").toList)) ∧
    URBCapture._get_urb_function_name 255 = "UNKNOWN_0x00FF" :=
  ⟨by decide, get_urb_function_name_unknown 255 (by decide), by decide⟩

-- ===== C2 =====

/-- C2 counterexample: the provider filter is a SUBSTRING test, not an
equality test.  The provider name Microsoft-Windows-USB-USBHUBX is not one
of the five fixed provider names, yet the event passes the filter (it
contains Microsoft-Windows-USB-USBHUB) and contributes a record. -/
theorem provider_filter_cex :
    evHubX.provider_name ∉ URBParserObserver.usb_providers ∧
    (URBParserObserver.on_event_record evHubX).isSome = true := by
  constructor
  · decide
  · decide

/-- C2 (amended): on_event_record produces a record exactly when the
event's provider name CONTAINS one of the five fixed USB provider names as
a substring (so every event whose provider name contains none of them is
rejected, while a name merely containing one — not necessarily equal to
one — can contribute a record). -/
theorem provider_filter_characterisation (ev : EtlEvent) :
    (URBParserObserver.on_event_record ev).isSome =
      URBParserObserver.usb_providers.any
        (fun provider => strContains ev.provider_name provider) := by
  unfold URBParserObserver.on_event_record
  split
  case isTrue h => simp [h]
  case isFalse h => simp_all

-- ===== C5 =====

/-- C5: every produced record's transfer buffer is the 1024-byte
truncation of the decoded input buffer: its length never exceeds 1024, and
it is never padded or expanded beyond the decoded input's length,
regardless of the input's size or representation. -/
theorem transfer_buffer_truncated (ev : EtlEvent) (urb : URBTransfer)
    (h : URBParserObserver.on_event_record ev = some urb) :
    urb.transfer_buffer.length ≤ 1024 ∧
    urb.transfer_buffer = (decodeTransferBuffer ev.data.TransferBuffer).take 1024 ∧
    urb.transfer_buffer.length ≤ (decodeTransferBuffer ev.data.TransferBuffer).length := by
  have he := on_event_record_some h
  subst he
  refine ⟨?_, rfl, ?_⟩
  · show ((decodeTransferBuffer ev.data.TransferBuffer).take 1024).length ≤ 1024
    simp [List.length_take]
  · show ((decodeTransferBuffer ev.data.TransferBuffer).take 1024).length ≤ _
    simp [List.length_take]

/-- C5 witness: the property at a concrete bulk event with a hex-string
buffer. -/
theorem transfer_buffer_truncated_witness :
    URBParserObserver.on_event_record evBulk =
      some (URBParserObserver._extract_urb_from_event evBulk) ∧
    ((URBParserObserver._extract_urb_from_event evBulk).transfer_buffer.length ≤ 1024 ∧
     (URBParserObserver._extract_urb_from_event evBulk).transfer_buffer =
       (decodeTransferBuffer evBulk.data.TransferBuffer).take 1024 ∧
     (URBParserObserver._extract_urb_from_event evBulk).transfer_buffer.length ≤
       (decodeTransferBuffer evBulk.data.TransferBuffer).length) :=
  ⟨by decide, transfer_buffer_truncated evBulk _ (by decide)⟩

-- ===== C6 =====

/-- C6: a produced record carries a non-empty setup packet exactly when
its function code is the control-transfer code 0x0008. -/
theorem setup_packet_iff_control (ev : EtlEvent) (urb : URBTransfer)
    (h : URBParserObserver.on_event_record ev = some urb) :
    (urb.setup_packet ≠ none ↔ urb.urb_function = 0x0008) := by
  have he := on_event_record_some h
  subst he
  show (URBParserObserver._extract_urb_from_event ev).setup_packet ≠ none ↔ _
  unfold URBParserObserver._extract_urb_from_event
  by_cases hf : (dictGet2 ev.data.Function ev.data.URBFunction 0) = 0x0008
  · simp [hf]
  · simp [hf]

/-- C6 witness: the property at a concrete control-transfer event. -/
theorem setup_packet_iff_control_witness :
    URBParserObserver.on_event_record evControl =
      some (URBParserObserver._extract_urb_from_event evControl) ∧
    ((URBParserObserver._extract_urb_from_event evControl).setup_packet ≠ none ↔
      (URBParserObserver._extract_urb_from_event evControl).urb_function = 0x0008) :=
  ⟨by decide, setup_packet_iff_control evControl _ (by decide)⟩

-- ===== C7 =====

/-- C7: for every endpoint address 0..255 the decoder resolves the
direction to IN exactly when bit 0x80 of the address is set, and to OUT
otherwise. -/
theorem endpoint_direction_spec (ev : EtlEvent) (urb : URBTransfer)
    (h : URBParserObserver.on_event_record ev = some urb)
    (hb : urb.endpoint_address < 256) :
    (urb.endpoint_direction = "IN" ↔ urb.endpoint_address.land 0x80 ≠ 0) ∧
    (urb.endpoint_direction = "OUT" ↔ urb.endpoint_address.land 0x80 = 0) := by
  have he := on_event_record_some h
  subst he
  show ((URBParserObserver._extract_urb_from_event ev).endpoint_direction = "IN" ↔ _) ∧ _
  unfold URBParserObserver._extract_urb_from_event
  by_cases hd : (dictGet2 ev.data.EndpointAddress ev.data.Endpoint 0).land 0x80 ≠ 0
  · simp [hd]
  · simp [hd]
    omega

/-- C7 witness: the property at a concrete event with endpoint address
0x81 (an IN endpoint, below 256). -/
theorem endpoint_direction_spec_witness :
    URBParserObserver.on_event_record evBulk =
      some (URBParserObserver._extract_urb_from_event evBulk) ∧
    (URBParserObserver._extract_urb_from_event evBulk).endpoint_address < 256 ∧
    (((URBParserObserver._extract_urb_from_event evBulk).endpoint_direction = "IN" ↔
       (URBParserObserver._extract_urb_from_event evBulk).endpoint_address.land 0x80 ≠ 0) ∧
     ((URBParserObserver._extract_urb_from_event evBulk).endpoint_direction = "OUT" ↔
       (URBParserObserver._extract_urb_from_event evBulk).endpoint_address.land 0x80 = 0)) :=
  ⟨by decide, by decide, endpoint_direction_spec evBulk _ (by decide) (by decide)⟩

-- ===== C10 =====

/-- C10: the scalar control fields of a produced record always agree with
its setup packet: for the control-transfer code they equal the packet's
bmRequestType, bRequest, wValue, wIndex and wLength, and for every other
function code all five scalars are zero (and the packet is empty). -/
theorem control_scalars_match_setup (ev : EtlEvent) (urb : URBTransfer)
    (h : URBParserObserver.on_event_record ev = some urb) :
    (urb.urb_function = 0x0008 →
      ∃ sp, urb.setup_packet = some sp ∧
        urb.request_type = sp.bmRequestType ∧
        urb.request = sp.bRequest ∧
        urb.value = sp.wValue ∧
        urb.index = sp.wIndex ∧
        urb.length = sp.wLength) ∧
    (urb.urb_function ≠ 0x0008 →
      urb.setup_packet = none ∧
      urb.request_type = 0 ∧ urb.request = 0 ∧
      urb.value = 0 ∧ urb.index = 0 ∧ urb.length = 0) := by
  have he := on_event_record_some h
  subst he
  unfold URBParserObserver._extract_urb_from_event
  by_cases hf : (dictGet2 ev.data.Function ev.data.URBFunction 0) = 0x0008
  · simp [hf]
  · simp [hf]

/-- C10 witness: the property at a concrete control-transfer event. -/
theorem control_scalars_match_setup_witness :
    URBParserObserver.on_event_record evControl =
      some (URBParserObserver._extract_urb_from_event evControl) ∧
    (((URBParserObserver._extract_urb_from_event evControl).urb_function = 0x0008 →
      ∃ sp, (URBParserObserver._extract_urb_from_event evControl).setup_packet = some sp ∧
        (URBParserObserver._extract_urb_from_event evControl).request_type = sp.bmRequestType ∧
        (URBParserObserver._extract_urb_from_event evControl).request = sp.bRequest ∧
        (URBParserObserver._extract_urb_from_event evControl).value = sp.wValue ∧
        (URBParserObserver._extract_urb_from_event evControl).index = sp.wIndex ∧
        (URBParserObserver._extract_urb_from_event evControl).length = sp.wLength) ∧
     ((URBParserObserver._extract_urb_from_event evControl).urb_function ≠ 0x0008 →
      (URBParserObserver._extract_urb_from_event evControl).setup_packet = none ∧
      (URBParserObserver._extract_urb_from_event evControl).request_type = 0 ∧
      (URBParserObserver._extract_urb_from_event evControl).request = 0 ∧
      (URBParserObserver._extract_urb_from_event evControl).value = 0 ∧
      (URBParserObserver._extract_urb_from_event evControl).index = 0 ∧
      (URBParserObserver._extract_urb_from_event evControl).length = 0)) :=
  ⟨by decide, control_scalars_match_setup evControl _ (by decide)⟩

-- ===== C4 =====

/-- C4: calling start_realtime_capture while a real-time capture is
already running returns false and leaves the state untouched: the running
flag stays true and the registered sink is not replaced. -/
theorem start_realtime_capture_already_running {σ : Type} (available : Bool)
    (st : URBCaptureState σ) (callback : σ) (h : st.realtime_running = true) :
    (URBCapture.start_realtime_capture available st callback).1 = false ∧
    (URBCapture.start_realtime_capture available st callback).2 = st ∧
    (URBCapture.start_realtime_capture available st callback).2.realtime_running = true ∧
    (URBCapture.start_realtime_capture available st callback).2.realtime_callback =
      st.realtime_callback := by
  unfold URBCapture.start_realtime_capture
  cases available <;> simp [h]

/-- C4 witness: a second start against a running session with sink 7 is
rejected and sink 7 stays registered. -/
theorem start_realtime_capture_already_running_witness :
    runningState.realtime_running = true ∧
    ((URBCapture.start_realtime_capture true runningState 9).1 = false ∧
     (URBCapture.start_realtime_capture true runningState 9).2 = runningState ∧
     (URBCapture.start_realtime_capture true runningState 9).2.realtime_running = true ∧
     (URBCapture.start_realtime_capture true runningState 9).2.realtime_callback =
       runningState.realtime_callback) :=
  ⟨rfl, start_realtime_capture_already_running true runningState 9 rfl⟩

-- ===== C9 =====

/-- C9: parsing a path that names no existing file returns the empty list
immediately (the embedding is total, so no exception can escape). -/
theorem parse_etl_file_missing (fs : String → Option (List EtlEvent)) (path : String)
    (h : fs path = none) :
    URBCapture.parse_etl_file fs path = [] := by
  unfold URBCapture.parse_etl_file
  rw [h]

/-- C9 witness: parsing a missing trace file on an empty filesystem. -/
theorem parse_etl_file_missing_witness :
    emptyFs ("C:\\traces\\missing.etl") = none ∧
    URBCapture.parse_etl_file emptyFs ("C:\\traces\\missing.etl") = [] :=
  ⟨rfl, parse_etl_file_missing emptyFs ("C:\\traces\\missing.etl") rfl⟩

-- ===== C3 =====

theorem deliverNew_seen_mem (k : String) (l : List URBTransfer) :
    ∀ seen : List String,
      (k ∈ (deliverNew seen l).1 ↔ k ∈ seen ∨ k ∈ l.map urbKey) := by
  induction l with
  | nil => intro seen; simp [deliverNew]
  | cons u rest ih =>
    intro seen
    by_cases h : urbKey u ∈ seen
    · simp only [deliverNew]
      rw [if_pos h, ih seen]
      simp only [List.map_cons, List.mem_cons]
      constructor
      · rintro (hs | hr)
        · exact Or.inl hs
        · exact Or.inr (Or.inr hr)
      · rintro (hs | rfl | hr)
        · exact Or.inl hs
        · exact Or.inl h
        · exact Or.inr hr
    · simp only [deliverNew]
      rw [if_neg h]
      show k ∈ (deliverNew (urbKey u :: seen) rest).1 ↔ _
      rw [ih (urbKey u :: seen)]
      simp only [List.mem_cons, List.map_cons]
      tauto

theorem deliverNew_filter_of_seen (k : String) (l : List URBTransfer) :
    ∀ seen : List String, k ∈ seen →
      (deliverNew seen l).2.filter (fun u => urbKey u == k) = [] := by
  induction l with
  | nil => intro seen _; simp [deliverNew]
  | cons u rest ih =>
    intro seen hk
    by_cases h : urbKey u ∈ seen
    · simp only [deliverNew]
      rw [if_pos h]
      exact ih seen hk
    · simp only [deliverNew]
      rw [if_neg h]
      show List.filter _ (u :: (deliverNew (urbKey u :: seen) rest).2) = []
      rw [List.filter_cons]
      rw [if_neg (fun hc => h (by rw [beq_iff_eq.mp hc]; exact hk))]
      exact ih (urbKey u :: seen) (List.mem_cons_of_mem _ hk)

theorem deliverNew_filter_of_new (k : String) (l : List URBTransfer) :
    ∀ seen : List String, k ∉ seen →
      (deliverNew seen l).2.filter (fun u => urbKey u == k) =
        (l.filter (fun u => urbKey u == k)).take 1 := by
  induction l with
  | nil => intro seen _; simp [deliverNew]
  | cons u rest ih =>
    intro seen hk
    by_cases h : urbKey u ∈ seen
    · simp only [deliverNew]
      rw [if_pos h, ih seen hk, List.filter_cons]
      rw [if_neg (fun hc => hk (by rw [← beq_iff_eq.mp hc]; exact h))]
    · simp only [deliverNew]
      rw [if_neg h]
      show List.filter _ (u :: (deliverNew (urbKey u :: seen) rest).2) = _
      rw [List.filter_cons, List.filter_cons]
      by_cases he : urbKey u = k
      · rw [if_pos (beq_iff_eq.mpr he), if_pos (beq_iff_eq.mpr he)]
        rw [deliverNew_filter_of_seen k rest (urbKey u :: seen)
              (by rw [← he]; exact List.mem_cons_self _ _)]
        simp
      · rw [if_neg (fun hc => he (beq_iff_eq.mp hc)),
            if_neg (fun hc => he (beq_iff_eq.mp hc))]
        refine ih (urbKey u :: seen) ?_
        intro hc
        rcases List.mem_cons.mp hc with hc | hc
        · exact he hc.symm
        · exact hk hc

theorem realtimeLoop_filter (k : String) (passes : List (List URBTransfer)) :
    ∀ seen : List String,
      (realtimeLoop seen passes).filter (fun u => urbKey u == k) =
        if k ∈ seen then []
        else ((passes.flatten).filter (fun u => urbKey u == k)).take 1 := by
  induction passes with
  | nil =>
    intro seen
    simp only [realtimeLoop, List.flatten_nil, List.filter_nil, List.take_nil]
    split <;> rfl
  | cons p ps ih =>
    intro seen
    simp only [realtimeLoop]
    show ((deliverNew seen p).2 ++ realtimeLoop (deliverNew seen p).1 ps).filter _ = _
    rw [List.filter_append, ih (deliverNew seen p).1]
    by_cases hs : k ∈ seen
    · rw [deliverNew_filter_of_seen k p seen hs]
      rw [if_pos ((deliverNew_seen_mem k p seen).mpr (Or.inl hs))]
      rw [if_pos hs]
      rfl
    · rw [deliverNew_filter_of_new k p seen hs]
      rw [if_neg hs]
      by_cases hp : k ∈ p.map urbKey
      · rw [if_pos ((deliverNew_seen_mem k p seen).mpr (Or.inr hp))]
        rw [List.flatten_cons, List.filter_append, List.append_nil]
        have hne : p.filter (fun u => urbKey u == k) ≠ [] := by
          obtain ⟨u, hu, hke⟩ := List.mem_map.mp hp
          intro hnil
          have hin : u ∈ p.filter (fun u => urbKey u == k) :=
            List.mem_filter.mpr ⟨hu, beq_iff_eq.mpr hke⟩
          rw [hnil] at hin
          exact (List.not_mem_nil u) hin
        obtain ⟨a, as, hfp⟩ : ∃ a as, p.filter (fun u => urbKey u == k) = a :: as := by
          cases hq : p.filter (fun u => urbKey u == k) with
          | nil => exact absurd hq hne
          | cons a as => exact ⟨a, as, rfl⟩
        rw [hfp]
        simp
      · have hmem2 : k ∉ (deliverNew seen p).1 := by
          intro hmem
          rcases (deliverNew_seen_mem k p seen).mp hmem with hc | hc
          · exact hs hc
          · exact hp hc
        rw [if_neg hmem2]
        have hfp : p.filter (fun u => urbKey u == k) = [] := by
          rw [List.filter_eq_nil_iff]
          intro u hu hc
          exact hp (List.mem_map.mpr ⟨u, hu, beq_iff_eq.mp hc⟩)
        rw [hfp, List.flatten_cons, List.filter_append, hfp]
        simp

/-- C3: over a whole run of the real-time worker, records sharing one
identity key produce exactly one sink invocation, delivering the first
record bearing that key across all parse passes and discarding every later
one. -/
theorem realtime_dedup_unique_delivery (passes : List (List URBTransfer)) (k : String)
    (h : k ∈ (passes.flatten).map urbKey) :
    (URBCapture._realtime_worker passes).filter (fun u => urbKey u == k) =
      ((passes.flatten).filter (fun u => urbKey u == k)).take 1 ∧
    ((URBCapture._realtime_worker passes).filter (fun u => urbKey u == k)).length = 1 := by
  have h1 := realtimeLoop_filter k passes []
  rw [if_neg (List.not_mem_nil k)] at h1
  have heq : (URBCapture._realtime_worker passes).filter (fun u => urbKey u == k) =
      ((passes.flatten).filter (fun u => urbKey u == k)).take 1 := h1
  refine ⟨heq, ?_⟩
  rw [heq]
  obtain ⟨u, hu, hke⟩ := List.mem_map.mp h
  have hmem : u ∈ (passes.flatten).filter (fun u => urbKey u == k) :=
    List.mem_filter.mpr ⟨hu, beq_iff_eq.mpr hke⟩
  cases hq : (passes.flatten).filter (fun u => urbKey u == k) with
  | nil => rw [hq] at hmem; exact absurd hmem (List.not_mem_nil u)
  | cons a as => rfl

/-- C3 witness: two parse passes each containing the same record yield a
single delivery of it. -/
theorem realtime_dedup_unique_delivery_witness :
    urbKey u0 ∈ (([[u0], [u0]] : List (List URBTransfer)).flatten.map urbKey) ∧
    ((URBCapture._realtime_worker [[u0], [u0]]).filter (fun u => urbKey u == urbKey u0) =
       ((([[u0], [u0]] : List (List URBTransfer)).flatten).filter
          (fun u => urbKey u == urbKey u0)).take 1 ∧
     ((URBCapture._realtime_worker [[u0], [u0]]).filter
        (fun u => urbKey u == urbKey u0)).length = 1) :=
  ⟨by decide, realtime_dedup_unique_delivery [[u0], [u0]] (urbKey u0) (by decide)⟩
